import Mathlib

/-!
Shallow embedding of the `smother` backend (an UMA 2.0 protection API with a
WebID-OIDC token verifier) and proofs about its behaviour.

The embedding follows the Rust sources:
  * `src/backend/src/storage.rs` — the `KeyValueStore` trait and its `HashMap`
    implementation, modelled here as an association list (`StoreMap`) whose
    operations mirror `HashMap::insert` / `get_key_value` / `get` / `remove` /
    `keys`;
  * `src/backend/src/uma/errors.rs` — the error taxonomy (`ErrorMessage` and
    the `RESOURCE_NOT_FOUND` / `UNSUPPORTED_METHOD_TYPE` / `INVALID_REQUEST`
    constants) and the `From<ErrorMessage> for Response<ErrorMessage>`
    conversion;
  * `src/backend/src/uma/resource_registration.rs` — the five registry
    operations;
  * `src/backend/src/uma/permission.rs` — permission-ticket issuance;
  * `src/backend/src/oidc.rs` — the token verifier (`authenticate`,
    `verify_times`) and the well-known discovery-URL construction in
    `get_issuer_jwks`.

Conventions: machine integers (`i64` timestamps) become `Int`; Rust `String`
and `Iri<String>` become `String`; fallible code returns `Except`; a Rust
`panic` (the `unwrap` inside `KeyValueStore::set`) is modelled by `Option`
(`none` = panic); UUIDv4 generation is modelled by an explicit `fresh`
parameter (the source draws it from `Uuid::new_v4()`); network fetches of the
verifier are oracle parameters holding the fetch's outcome.
-/

/-! ## Key-value store (`storage.rs`)

`impl<K, V> KeyValueStore for HashMap<K, V>` is modelled on association lists.
A `HashMap` binds each key at most once; `storeInsert` replaces any previous
binding, `storeGet`/`storeGetKeyValue` return the binding, `storeErase`
removes it, `storeList` returns the keys. -/

/-- Association-list model of the backing `HashMap<K, V>`. -/
def StoreMap (K V : Type) : Type := List (K × V)

instance (K V : Type) [DecidableEq K] [DecidableEq V] : DecidableEq (StoreMap K V) :=
  inferInstanceAs (DecidableEq (List (K × V)))

/-- `HashMap::remove`-style erasure of a key's binding. -/
def storeErase {K V : Type} [DecidableEq K] : StoreMap K V → K → StoreMap K V
  | [], _ => []
  | (k2, v) :: t, k => if k2 = k then storeErase t k else (k2, v) :: storeErase t k

/-- `HashMap::insert`: bind `k` to `v`, replacing any previous binding. -/
def storeInsert {K V : Type} [DecidableEq K] (m : StoreMap K V) (k : K) (v : V) :
    StoreMap K V :=
  (k, v) :: storeErase m k

/-- `HashMap::get`. -/
def storeGet {K V : Type} [DecidableEq K] : StoreMap K V → K → Option V
  | [], _ => none
  | (k2, v) :: t, k => if k2 = k then some v else storeGet t k

/-- `HashMap::get_key_value`. -/
def storeGetKeyValue {K V : Type} [DecidableEq K] : StoreMap K V → K → Option (K × V)
  | [], _ => none
  | (k2, v) :: t, k => if k2 = k then some (k2, v) else storeGetKeyValue t k

/-- `HashMap::keys`, as consumed by `KeyValueStore::list`. -/
def storeList {K V : Type} (m : StoreMap K V) : List K := m.map Prod.fst

/-- `KeyValueStore::set` for `HashMap` (storage.rs, lines 21-24):
`self.insert(key.clone(), value); return self.get_key_value(&key).unwrap().0;`.
The `unwrap` is modelled by `Option`: a `none` result would be a panic.
Returns the stored key (the reference the Rust code hands back) and the
updated map. -/
def kvs_set {K V : Type} [DecidableEq K] (m : StoreMap K V) (k : K) (v : V) :
    Option (K × StoreMap K V) :=
  let m2 := storeInsert m k v
  (storeGetKeyValue m2 k).map (fun kv => (kv.1, m2))

/-- `KeyValueStore::del` for `HashMap` (storage.rs, lines 30-32): `self.remove(key)`.
Returns the removed value (if any) and the updated map. -/
def kvs_del {K V : Type} [DecidableEq K] (m : StoreMap K V) (k : K) :
    Option V × StoreMap K V :=
  match storeGet m k with
  | some v => (some v, storeErase m k)
  | none => (none, m)

/-! ## String trimming

`str::trim_start_matches("/")` strips every leading occurrence of `"/"`;
`str::trim_end_matches('/')` strips every trailing `'/'`. -/

/-- Rust `path.trim_start_matches("/")`. -/
def trimStartSlashes (s : String) : String :=
  String.mk (s.data.dropWhile (fun c => c = '/'))

/-- Rust `issuer.trim_end_matches('/')`. -/
def trimEndSlashes (s : String) : String :=
  String.mk ((s.data.reverse.dropWhile (fun c => c = '/')).reverse)

/-! ## HTTP shapes and the error model (`errors.rs`) -/

/-- The HTTP methods the protection API distinguishes (`http::Method`). -/
inductive Method : Type
  | GET
  | POST
  | PUT
  | DELETE
  | PATCH
deriving DecidableEq

/-- `http::Request<B>`: the fields the protection API reads — the method, the
target path (`request.uri().path()`), and the body.  A Rust `Request<!>` has
no body; its body type is rendered as `Unit`. -/
structure Request (B : Type) : Type where
  method : Method
  path : String
  body : B
deriving DecidableEq

/-- `http::Response<B>`: status, headers and body.  `Response::builder()` with
the constant statuses used by the source never fails, so builders are total
here (`catch_errors` in the source only maps that impossible failure). -/
structure Response (B : Type) : Type where
  status : Nat
  headers : List (String × String)
  body : B
deriving DecidableEq

/-- `ErrorMessage` (errors.rs, lines 13-30).  `status_code` is the transport
status; `error_code` the wire `error` member. -/
structure ErrorMessage : Type where
  status_code : Nat
  error_code : String
  error_description : Option String
  error_uri : Option String
deriving DecidableEq

/-- `RESOURCE_NOT_FOUND` (errors.rs, lines 87-92): `StatusCode::NOT_FOUND`. -/
def RESOURCE_NOT_FOUND : ErrorMessage :=
  ⟨404, "not_found", some "The referenced resource could be found.", none⟩

/-- `UNSUPPORTED_METHOD_TYPE` (errors.rs, lines 94-101).  The source builds it
with `StatusCode::NOT_FOUND` (404) although the doc comment above its enum
variant mandates 405 Method Not Allowed. -/
def UNSUPPORTED_METHOD_TYPE : ErrorMessage :=
  ⟨404, "unsupported_method_type", some "The request used an unsupported HTTP method.",
    none⟩

/-- `INVALID_REQUEST` (errors.rs, lines 103-108): `StatusCode::BAD_REQUEST`. -/
def INVALID_REQUEST : ErrorMessage :=
  ⟨400, "invalid_request",
    some "The request is missing a required parameter, includes an invalid parameter value, includes a parameter more than once, or is otherwise malformed.",
    none⟩

/-- `From<ErrorMessage> for Response<ErrorMessage>` (errors.rs, lines 64-73):
status from the message, two fixed headers, the message as body. -/
def errorResponse (msg : ErrorMessage) : Response ErrorMessage :=
  { status := msg.status_code
    headers := [("Content-Type", "application/json"), ("Cache-Control", "no-store")]
    body := msg }

instance {E A : Type} [DecidableEq E] [DecidableEq A] : DecidableEq (Except E A) :=
  fun x y =>
    match x, y with
    | Except.error a, Except.error b =>
      if h : a = b then Decidable.isTrue (by rw [h])
      else Decidable.isFalse (by simp [h])
    | Except.ok a, Except.ok b =>
      if h : a = b then Decidable.isTrue (by rw [h])
      else Decidable.isFalse (by simp [h])
    | Except.error _, Except.ok _ => Decidable.isFalse (fun hc => Except.noConfusion hc)
    | Except.ok _, Except.error _ => Decidable.isFalse (fun hc => Except.noConfusion hc)

/-- The per-operation result type `Result<T> = result::Result<Response<T>,
Response<ErrorMessage>>`. -/
def OpResult (T : Type) : Type := Except (Response ErrorMessage) (Response T)

instance (T : Type) [DecidableEq T] : DecidableEq (OpResult T) :=
  inferInstanceAs (DecidableEq (Except (Response ErrorMessage) (Response T)))

/-! ## Resource descriptions (`federation.rs`) and the registry
(`resource_registration.rs`) -/

/-- `ResourceDescription` (federation.rs, lines 84-107).  `icon_uri` is
`Option<Either<Iri<String>, String>>` in the source; both alternatives are
strings here. -/
structure ResourceDescription : Type where
  _id : String
  resource_scopes : List String
  description : Option String
  icon_uri : Option (String ⊕ String)
  name : Option String
  type : Option String
deriving DecidableEq

/-- `SuccessfulResponse` of the registration endpoint
(resource_registration.rs, lines 109-127). -/
structure RegSuccessfulResponse : Type where
  _id : String
  user_access_policy_uri : Option String
  resource_description : Option ResourceDescription
deriving DecidableEq

/-- `ResourceDescriptionStore = dyn KeyValueStore<Key = String, Value =
ResourceDescription>`. -/
abbrev RStore : Type := StoreMap String ResourceDescription

/-- `create_resource_registration` (resource_registration.rs, lines 168-184):
reject non-POST with `UNSUPPORTED_METHOD_TYPE`; otherwise store the body under
a fresh UUID (`fresh` parameter) via `KeyValueStore::set` and answer `201
Created` with that id.  `none` models the panic inside `set`'s `unwrap`. -/
def create_resource_registration (store : RStore) (fresh : String)
    (request : Request ResourceDescription) :
    Option (OpResult RegSuccessfulResponse × RStore) :=
  if request.method ≠ Method.POST then
    some (Except.error (errorResponse UNSUPPORTED_METHOD_TYPE), store)
  else
    (kvs_set store fresh request.body).map (fun km =>
      (Except.ok ⟨201, [], ⟨km.1, none, none⟩⟩, km.2))

/-- `read_resource_registration` (resource_registration.rs, lines 193-212):
reject non-GET; otherwise look up the path with its leading slashes trimmed
and answer `200 OK` with the stored description, or `RESOURCE_NOT_FOUND`.
The store is returned unchanged in every branch (the body only calls `get`). -/
def read_resource_registration (store : RStore) (request : Request Unit) :
    OpResult RegSuccessfulResponse × RStore :=
  if request.method ≠ Method.GET then
    (Except.error (errorResponse UNSUPPORTED_METHOD_TYPE), store)
  else
    let id := trimStartSlashes request.path
    match storeGet store id with
    | some description => (Except.ok ⟨200, [], ⟨id, none, some description⟩⟩, store)
    | none => (Except.error (errorResponse RESOURCE_NOT_FOUND), store)

/-- `update_resource_registration` (resource_registration.rs, lines 220-236):
reject non-PUT; otherwise `set` the body under the trimmed path id —
whether or not that id already exists — and answer `200 OK` with the id. -/
def update_resource_registration (store : RStore)
    (request : Request ResourceDescription) :
    Option (OpResult RegSuccessfulResponse × RStore) :=
  if request.method ≠ Method.PUT then
    some (Except.error (errorResponse UNSUPPORTED_METHOD_TYPE), store)
  else
    let id := trimStartSlashes request.path
    (kvs_set store id request.body).map (fun km =>
      (Except.ok ⟨200, [], ⟨km.1, none, none⟩⟩, km.2))

/-- `delete_resource_registration` (resource_registration.rs, lines 243-262):
reject non-DELETE; otherwise `del` the trimmed path id and answer `204 No
Content`, or `RESOURCE_NOT_FOUND` when nothing was bound. -/
def delete_resource_registration (store : RStore) (request : Request Unit) :
    OpResult RegSuccessfulResponse × RStore :=
  if request.method ≠ Method.DELETE then
    (Except.error (errorResponse UNSUPPORTED_METHOD_TYPE), store)
  else
    let id := trimStartSlashes request.path
    match kvs_del store id with
    | (some _, m2) => (Except.ok ⟨204, [], ⟨id, none, none⟩⟩, m2)
    | (none, m2) => (Except.error (errorResponse RESOURCE_NOT_FOUND), m2)

/-- `list_resource_registration` (resource_registration.rs, lines 272-288):
reject non-GET; reject any target other than the collection root `"/"` with
`INVALID_REQUEST`; otherwise answer `200 OK` with the stored keys. -/
def list_resource_registration (store : RStore) (request : Request Unit) :
    OpResult (List String) × RStore :=
  if request.method ≠ Method.GET then
    (Except.error (errorResponse UNSUPPORTED_METHOD_TYPE), store)
  else if request.path ≠ "/" then
    (Except.error (errorResponse INVALID_REQUEST), store)
  else
    (Except.ok ⟨200, [], storeList store⟩, store)

/-! ## Permission tickets (`permission.rs`) -/

/-- `Permission` (permission.rs, lines 74-83). -/
structure Permission : Type where
  resource_id : String
  resource_scopes : List String
deriving DecidableEq

/-- `SuccessfulResponse` of the permission endpoint (permission.rs, line 114). -/
structure TicketSuccessfulResponse : Type where
  ticket : String
deriving DecidableEq

/-- `PermissionTicketStore = dyn KeyValueStore<Key = String, Value =
Vec<Permission>>`. -/
abbrev TStore : Type := StoreMap String (List Permission)

/-- `request_permission_ticket` (permission.rs, lines 152-174): reject
non-POST; otherwise take the requested permissions verbatim as the granted
ones, store them under a fresh UUID ticket (`fresh` parameter) via
`KeyValueStore::set`, and answer `201 Created` with the ticket. -/
def request_permission_ticket (store : TStore) (fresh : String)
    (request : Request (List Permission)) :
    Option (OpResult TicketSuccessfulResponse × TStore) :=
  if request.method ≠ Method.POST then
    some (Except.error (errorResponse UNSUPPORTED_METHOD_TYPE), store)
  else
    let granted_permissions := request.body
    (kvs_set store fresh granted_permissions).map (fun km =>
      (Except.ok ⟨201, [], ⟨km.1⟩⟩, km.2))

/-! ## Token verifier (`oidc.rs`) -/

/-- The error variants of `AuthError` (oidc.rs, lines 135-158).  Payloads
(source errors) are dropped; `NoMatchingJwk` is raised by `verify_signature`
though the source enum omits it. -/
inductive AuthError : Type
  | InvalidToken
  | InvalidAudience
  | TokenIssuedInFuture
  | TokenExpired
  | TokenNotYetValid
  | NoIssuerConfig
  | InvalidIssuerConfig
  | NoJwksUri
  | NoJwks
  | InvalidJwks
  | NoMatchingJwk
  | IssuerNotAllowed
deriving DecidableEq

/-- `AccessToken` claims (oidc.rs, lines 17-28); `cnf.jkt` is flattened. -/
structure AccessToken : Type where
  webid : String
  iss : String
  sub : String
  aud : List String
  azp : String
  nbf : Option Int
  iat : Int
  exp : Int
  cnf_jkt : String
deriving DecidableEq

/-- `WebidDoc` (oidc.rs, lines 35-38). -/
structure WebidDoc : Type where
  issuers : List String
deriving DecidableEq

/-- `verify_times` (oidc.rs, lines 73-83): `iat` in the future, then `exp` in
the past, then `nbf` (when present) in the future, in that order.  `now` is
the wall-clock Unix timestamp the source reads at line 75. -/
def verify_times (now : Int) (t : AccessToken) : Except AuthError Unit :=
  if t.iat > now then Except.error AuthError.TokenIssuedInFuture
  else if t.exp < now then Except.error AuthError.TokenExpired
  else
    match t.nbf with
    | some nbf =>
      if nbf > now then Except.error AuthError.TokenNotYetValid else Except.ok ()
    | none => Except.ok ()

/-- The trust branch of `authenticate` (oidc.rs, lines 59-61): the outcome of
`get_webid_doc(token.webid)` (a network fetch, passed as `webidFetch`)
composed with the `issuers.contains(&token.iss)` check. -/
def trustBranch (t : AccessToken) (webidFetch : Except AuthError WebidDoc) :
    Except AuthError WebidDoc :=
  match webidFetch with
  | Except.error e => Except.error e
  | Except.ok doc =>
    if t.iss ∈ doc.issuers then Except.ok doc
    else Except.error AuthError.IssuerNotAllowed

/-- `authenticate` (oidc.rs, lines 50-71).  `parsed` is the outcome of the
serde parse at line 52 (`none` = malformed payload).  Then, in source order:
the two audience checks (lines 54-55), `verify_times` (line 57), and the
`try_join!` of the trust branch and the signature branch (line 67), whose
outcomes enter as the oracles `webidFetch` and `signature`.  `try_join!`
reports the first failure; when both branches fail the source's choice is
timing-dependent, and this embedding determinizes it in favour of the trust
branch — no theorem below depends on that choice (each fixes at least one
branch's outcome). -/
def authenticate (now : Int) (parsed : Option AccessToken)
    (webidFetch : Except AuthError WebidDoc) (signature : Except AuthError Unit) :
    Except AuthError Unit :=
  match parsed with
  | none => Except.error AuthError.InvalidToken
  | some t =>
    if t.aud.any (fun s => s = "solid") then
      if t.aud.any (fun s => s = t.azp) then
        match verify_times now t with
        | Except.error e => Except.error e
        | Except.ok _ =>
          match trustBranch t webidFetch, signature with
          | Except.error e, _ => Except.error e
          | Except.ok _, Except.error e => Except.error e
          | Except.ok _, Except.ok _ => Except.ok ()
      else Except.error AuthError.InvalidAudience
    else Except.error AuthError.InvalidAudience

/-- `well_known` (oidc.rs, line 99).  Note: no leading slash. -/
def well_known : String := ".well-known/openid-configuration"

/-- The issuer-configuration fetch URL built by `get_issuer_jwks` (oidc.rs,
line 105): `issuer.trim_end_matches('/').to_owned() + well_known`. -/
def cfg_uri (issuer : String) : String := trimEndSlashes issuer ++ well_known

/-- The fetch URL as the specification words it: the issuer with any trailing
slash trimmed, followed by the path `/.well-known/openid-configuration`, a
single slash separating the two.  Stated for comparison with `cfg_uri`. -/
def cfg_uri_spec (issuer : String) : String :=
  trimEndSlashes issuer ++ "/" ++ well_known

/-! ## Concrete sample data for closed statements -/

/-- A concrete resource description (the scopes of spec §8, scenario 8). -/
def sampleDescription : ResourceDescription :=
  ⟨"", ["view", "print"], none, none, none, none⟩

/-- A concrete permission request (spec §8, scenario 9). -/
def samplePermissions : List Permission := [⟨"R1", ["view"]⟩]

/-- A concrete access token whose `exp` (5) lies before the evaluation time
(10) and whose audience list is empty, so the audience check also fails. -/
def expiredBadAudienceToken : AccessToken :=
  ⟨"https://me.example/card", "https://iss.example", "me", [], "https://app.example",
    none, 0, 5, "jkt"⟩

/-- A concrete access token whose `exp` (5) lies before the evaluation time
(10) but whose audience checks pass and whose `iat` is not in the future. -/
def expiredToken : AccessToken :=
  ⟨"https://me.example/card", "https://iss.example", "me",
    ["solid", "https://app.example"], "https://app.example", none, 0, 5, "jkt"⟩

/-- A concrete access token passing the audience and temporal checks at time
10, issued by `https://iss.example`. -/
def freshToken : AccessToken :=
  ⟨"https://me.example/card", "https://iss.example", "me",
    ["solid", "https://app.example"], "https://app.example", some 1, 0, 99, "jkt"⟩

/-- A WebID document that does not list `https://iss.example` as trusted. -/
def otherIssuerDoc : WebidDoc := ⟨["https://other.example"]⟩

/-! ## Store lemmas -/

theorem storeGet_erase_self {K V : Type} [DecidableEq K] (m : StoreMap K V) (k : K) :
    storeGet (storeErase m k) k = none := by
  induction m with
  | nil => rfl
  | cons p t ih =>
    obtain ⟨k2, v⟩ := p
    by_cases h : k2 = k
    · simp [storeErase, h, ih]
    · simp [storeErase, storeGet, h, ih]

theorem storeGet_erase_ne {K V : Type} [DecidableEq K] (m : StoreMap K V) (k k2 : K)
    (h : k2 ≠ k) : storeGet (storeErase m k) k2 = storeGet m k2 := by
  induction m with
  | nil => rfl
  | cons p t ih =>
    obtain ⟨k3, v⟩ := p
    by_cases h3 : k3 = k
    · subst h3
      simp [storeErase, storeGet, Ne.symm h, ih]
    · simp only [storeErase, if_neg h3, storeGet]
      by_cases h2 : k3 = k2
      · simp [h2]
      · simp [h2, ih]

theorem storeGet_insert_self {K V : Type} [DecidableEq K] (m : StoreMap K V) (k : K)
    (v : V) : storeGet (storeInsert m k v) k = some v := by
  simp [storeInsert, storeGet]

theorem storeGet_insert_ne {K V : Type} [DecidableEq K] (m : StoreMap K V) (k k2 : K)
    (v : V) (h : k2 ≠ k) : storeGet (storeInsert m k v) k2 = storeGet m k2 := by
  simp only [storeInsert, storeGet, if_neg (Ne.symm h)]
  exact storeGet_erase_ne m k k2 h

theorem storeGetKeyValue_insert_self {K V : Type} [DecidableEq K] (m : StoreMap K V)
    (k : K) (v : V) : storeGetKeyValue (storeInsert m k v) k = some (k, v) := by
  simp [storeInsert, storeGetKeyValue]

/-- `KeyValueStore::set` resolves to the key it was given and the updated map:
shared helper behind the write paths of the registry and ticket operations. -/
theorem kvs_set_eq {K V : Type} [DecidableEq K] (m : StoreMap K V) (k : K) (v : V) :
    kvs_set m k v = some (k, storeInsert m k v) := by
  simp [kvs_set, storeGetKeyValue_insert_self]

/-! ## Claims -/

/-- C9: for every key-value store, key, and value, `KeyValueStore::set` never
panics — the lookup of the just-inserted key always succeeds, so the `unwrap`
in `set` is unreachable as a failure (the result is `some`, never the
panic-modelling `none`) — and `set` returns a key equal to the one given. -/
theorem set_never_panics {K V : Type} [DecidableEq K] (m : StoreMap K V) (k : K)
    (v : V) : kvs_set m k v = some (k, storeInsert m k v) :=
  kvs_set_eq m k v

/-- C10: `read_resource_registration` and `list_resource_registration` leave
the store unchanged — for every store state, request, and key, the store
component of the result (success or error, any method, any path) maps the key
to exactly the value it mapped to before the call. -/
theorem read_list_leave_store_unchanged (m : RStore) (r1 r2 : Request Unit)
    (k : String) :
    storeGet (read_resource_registration m r1).2 k = storeGet m k ∧
    storeGet (list_resource_registration m r2).2 k = storeGet m k := by
  constructor
  · unfold read_resource_registration
    split
    · rfl
    · dsimp only
      split <;> rfl
  · unfold list_resource_registration
    split
    · rfl
    · split <;> rfl

/-- C1 (evaluation of the code at the failing inputs): invoking each of the
six protection-API operations with a wrong HTTP method yields the
`UNSUPPORTED_METHOD_TYPE` error, but the error's HTTP status code — both on
the constant and on the wire response — is 404, not the 405 the claim (and
the doc comment in `errors.rs`) states. -/
theorem wrong_method_unsupported_status_404 :
    create_resource_registration [] "id0" ⟨Method.GET, "/", sampleDescription⟩ =
      some (Except.error (errorResponse UNSUPPORTED_METHOD_TYPE), []) ∧
    read_resource_registration [] ⟨Method.POST, "/x", ()⟩ =
      (Except.error (errorResponse UNSUPPORTED_METHOD_TYPE), []) ∧
    update_resource_registration [] ⟨Method.POST, "/x", sampleDescription⟩ =
      some (Except.error (errorResponse UNSUPPORTED_METHOD_TYPE), []) ∧
    delete_resource_registration [] ⟨Method.GET, "/x", ()⟩ =
      (Except.error (errorResponse UNSUPPORTED_METHOD_TYPE), []) ∧
    list_resource_registration [] ⟨Method.POST, "/", ()⟩ =
      (Except.error (errorResponse UNSUPPORTED_METHOD_TYPE), []) ∧
    request_permission_ticket [] "t0" ⟨Method.GET, "/", samplePermissions⟩ =
      some (Except.error (errorResponse UNSUPPORTED_METHOD_TYPE), []) ∧
    (errorResponse UNSUPPORTED_METHOD_TYPE).status = 404 ∧
    UNSUPPORTED_METHOD_TYPE.status_code = 404 :=
  ⟨rfl, rfl, rfl, rfl, rfl, rfl, rfl, rfl⟩

/-- C2 (evaluation of the code at the failing input): the issuer-configuration
fetch URL built by `get_issuer_jwks` concatenates the trimmed issuer and the
well-known suffix with no separating slash, so it differs from the claim's
`<trimmed issuer>/.well-known/openid-configuration` form — with or without a
trailing slash on the issuer. -/
theorem cfg_uri_omits_separating_slash :
    cfg_uri "https://iss.example" =
      "https://iss.example.well-known/openid-configuration" ∧
    cfg_uri "https://iss.example/" =
      "https://iss.example.well-known/openid-configuration" ∧
    cfg_uri_spec "https://iss.example" =
      "https://iss.example/.well-known/openid-configuration" ∧
    cfg_uri "https://iss.example" ≠ cfg_uri_spec "https://iss.example" := by
  refine ⟨by decide, by decide, by decide, by decide⟩

/-- C5: creating a resource description (POST) answers `201 Created` with the
freshly generated id, and immediately reading that id back (GET, on the path
that trims to the id) answers `200 OK` with a stored description equal to the
one submitted — over every store state, description, and create path. -/
theorem create_then_read_roundtrip (m : RStore) (d : ResourceDescription)
    (f pc pr : String) (hp : trimStartSlashes pr = f) :
    create_resource_registration m f ⟨Method.POST, pc, d⟩ =
      some (Except.ok ⟨201, [], ⟨f, none, none⟩⟩, storeInsert m f d) ∧
    read_resource_registration (storeInsert m f d) ⟨Method.GET, pr, ()⟩ =
      (Except.ok ⟨200, [], ⟨f, none, some d⟩⟩, storeInsert m f d) := by
  constructor
  · simp [create_resource_registration, kvs_set_eq]
  · simp [read_resource_registration, hp, storeGet_insert_self]

/-- Witness for C5: concrete round-trip with fresh id `"abc"` read back at
path `"/abc"`. -/
theorem create_then_read_roundtrip_witness :
    trimStartSlashes "/abc" = "abc" ∧
    (create_resource_registration [] "abc" ⟨Method.POST, "/", sampleDescription⟩ =
      some (Except.ok ⟨201, [], ⟨"abc", none, none⟩⟩,
        storeInsert [] "abc" sampleDescription) ∧
     read_resource_registration (storeInsert [] "abc" sampleDescription)
        ⟨Method.GET, "/abc", ()⟩ =
      (Except.ok ⟨200, [], ⟨"abc", none, some sampleDescription⟩⟩,
        storeInsert [] "abc" sampleDescription)) :=
  ⟨by decide, create_then_read_roundtrip [] sampleDescription "abc" "/" "/abc" (by decide)⟩

/-- C6: deleting an id bound in the store answers `204 No Content` and removes
the binding; deleting an id that is not bound answers `RESOURCE_NOT_FOUND`
(404); hence a second delete of the same id answers `RESOURCE_NOT_FOUND`. -/
theorem delete_removes_then_not_found (m : RStore) (f p : String)
    (v : ResourceDescription) (hp : trimStartSlashes p = f)
    (hpresent : storeGet m f = some v) :
    delete_resource_registration m ⟨Method.DELETE, p, ()⟩ =
      (Except.ok ⟨204, [], ⟨f, none, none⟩⟩, storeErase m f) ∧
    storeGet (storeErase m f) f = none ∧
    delete_resource_registration (storeErase m f) ⟨Method.DELETE, p, ()⟩ =
      (Except.error (errorResponse RESOURCE_NOT_FOUND), storeErase m f) ∧
    (∀ m2 : RStore, storeGet m2 f = none →
      delete_resource_registration m2 ⟨Method.DELETE, p, ()⟩ =
        (Except.error (errorResponse RESOURCE_NOT_FOUND), m2)) := by
  have habsent : ∀ m2 : RStore, storeGet m2 f = none →
      delete_resource_registration m2 ⟨Method.DELETE, p, ()⟩ =
        (Except.error (errorResponse RESOURCE_NOT_FOUND), m2) := by
    intro m2 h2
    simp [delete_resource_registration, hp, kvs_del, h2]
  refine ⟨?_, storeGet_erase_self m f, habsent _ (storeGet_erase_self m f), habsent⟩
  simp [delete_resource_registration, hp, kvs_del, hpresent]

/-- Witness for C6: concrete store binding `"abc"`, deleted at path `"/abc"`. -/
theorem delete_removes_then_not_found_witness :
    (trimStartSlashes "/abc" = "abc" ∧
     storeGet [("abc", sampleDescription)] "abc" = some sampleDescription) ∧
    delete_resource_registration [("abc", sampleDescription)]
        ⟨Method.DELETE, "/abc", ()⟩ =
      (Except.ok ⟨204, [], ⟨"abc", none, none⟩⟩,
        storeErase [("abc", sampleDescription)] "abc") :=
  ⟨⟨by decide, by decide⟩,
    (delete_removes_then_not_found [("abc", sampleDescription)] "abc" "/abc"
      sampleDescription (by decide) (by decide)).1⟩

/-- C7: updating (PUT) under any id — bound in the store or not — answers
`200 OK` with that id and stores the replacement description under it; since
the store state is arbitrary, an update with a nonexistent id silently creates
the entry rather than returning an error. -/
theorem update_succeeds_for_any_id (m : RStore) (d : ResourceDescription)
    (f p : String) (hp : trimStartSlashes p = f) :
    update_resource_registration m ⟨Method.PUT, p, d⟩ =
      some (Except.ok ⟨200, [], ⟨f, none, none⟩⟩, storeInsert m f d) ∧
    storeGet (storeInsert m f d) f = some d :=
  ⟨by simp [update_resource_registration, hp, kvs_set_eq],
   storeGet_insert_self m f d⟩

/-- Witness for C7: concrete update on the empty store (id `"abc"` does not
exist, the entry is created). -/
theorem update_succeeds_for_any_id_witness :
    trimStartSlashes "/abc" = "abc" ∧
    (update_resource_registration [] ⟨Method.PUT, "/abc", sampleDescription⟩ =
      some (Except.ok ⟨200, [], ⟨"abc", none, none⟩⟩,
        storeInsert [] "abc" sampleDescription) ∧
     storeGet (storeInsert [] "abc" sampleDescription) "abc" =
       some sampleDescription) :=
  ⟨by decide, update_succeeds_for_any_id [] sampleDescription "abc" "/abc" (by decide)⟩

/-- C8: issuing the same non-empty permission request twice (POST) with
distinct fresh ticket ids answers `201 Created` with each ticket id in turn,
and afterwards each ticket id resolves in the store to the same permission
sequence, stored verbatim as submitted. -/
theorem two_tickets_distinct_same_permissions (m : TStore) (ps : List Permission)
    (t1 t2 p1 p2 : String) (hne : t1 ≠ t2) (hps : ps ≠ []) :
    request_permission_ticket m t1 ⟨Method.POST, p1, ps⟩ =
      some (Except.ok ⟨201, [], ⟨t1⟩⟩, storeInsert m t1 ps) ∧
    request_permission_ticket (storeInsert m t1 ps) t2 ⟨Method.POST, p2, ps⟩ =
      some (Except.ok ⟨201, [], ⟨t2⟩⟩, storeInsert (storeInsert m t1 ps) t2 ps) ∧
    storeGet (storeInsert (storeInsert m t1 ps) t2 ps) t1 = some ps ∧
    storeGet (storeInsert (storeInsert m t1 ps) t2 ps) t2 = some ps := by
  refine ⟨by simp [request_permission_ticket, kvs_set_eq],
    by simp [request_permission_ticket, kvs_set_eq], ?_,
    storeGet_insert_self _ t2 ps⟩
  rw [storeGet_insert_ne _ t2 t1 ps hne]
  exact storeGet_insert_self m t1 ps

/-- Witness for C8: the concrete permission request of spec §8 scenario 9,
issued twice with distinct fresh tickets `"t1"` and `"t2"`. -/
theorem two_tickets_distinct_same_permissions_witness :
    (("t1" : String) ≠ "t2" ∧ samplePermissions ≠ []) ∧
    (request_permission_ticket [] "t1" ⟨Method.POST, "/", samplePermissions⟩ =
      some (Except.ok ⟨201, [], ⟨"t1"⟩⟩, storeInsert [] "t1" samplePermissions) ∧
     request_permission_ticket (storeInsert [] "t1" samplePermissions) "t2"
        ⟨Method.POST, "/", samplePermissions⟩ =
      some (Except.ok ⟨201, [], ⟨"t2"⟩⟩,
        storeInsert (storeInsert [] "t1" samplePermissions) "t2" samplePermissions) ∧
     storeGet (storeInsert (storeInsert [] "t1" samplePermissions) "t2"
        samplePermissions) "t1" = some samplePermissions ∧
     storeGet (storeInsert (storeInsert [] "t1" samplePermissions) "t2"
        samplePermissions) "t2" = some samplePermissions) :=
  ⟨⟨by decide, by decide⟩,
    two_tickets_distinct_same_permissions [] samplePermissions "t1" "t2" "/" "/"
      (by decide) (by decide)⟩

/-- Counterexample to C3 as stated: a concrete token whose `exp` (5) is
strictly below the current time (10) but whose audience set is invalid is
rejected with `InvalidAudience`, not `TokenExpired` — the audience checks of
`authenticate` run before `verify_times`. -/
theorem expired_claim_counterexample :
    expiredBadAudienceToken.exp < 10 ∧
    authenticate 10 (some expiredBadAudienceToken) (Except.ok ⟨[]⟩)
      (Except.ok ()) = Except.error AuthError.InvalidAudience ∧
    Except.error AuthError.InvalidAudience ≠
      (Except.error AuthError.TokenExpired : Except AuthError Unit) := by
  refine ⟨by decide, by decide, by decide⟩

/-- C3 as amended: for every token that passes the audience checks and whose
`iat` is not in the future, `exp` strictly below the current time makes
verification fail with `TokenExpired` — regardless of `nbf`, of the outcome
of the issuer-trust fetch, and of the outcome of the signature branch. -/
theorem expired_token_rejected (now : Int) (t : AccessToken)
    (wf : Except AuthError WebidDoc) (sig : Except AuthError Unit)
    (hs : t.aud.any (fun s => s = "solid") = true)
    (ha : t.aud.any (fun s => s = t.azp) = true)
    (hiat : t.iat ≤ now) (hexp : t.exp < now) :
    authenticate now (some t) wf sig = Except.error AuthError.TokenExpired := by
  have h1 : ¬ t.iat > now := not_lt.mpr hiat
  simp [authenticate, hs, ha, verify_times, h1, hexp]

/-- Witness for the amended C3: the concrete expired token, with both the
trust fetch and the signature branch failing for unrelated reasons. -/
theorem expired_token_rejected_witness :
    (expiredToken.aud.any (fun s => s = "solid") = true ∧
     expiredToken.aud.any (fun s => s = expiredToken.azp) = true ∧
     expiredToken.iat ≤ 10 ∧ expiredToken.exp < 10) ∧
    authenticate 10 (some expiredToken) (Except.error AuthError.NoJwks)
      (Except.error AuthError.InvalidJwks) = Except.error AuthError.TokenExpired :=
  ⟨⟨by decide, by decide, by decide, by decide⟩,
    expired_token_rejected 10 expiredToken (Except.error AuthError.NoJwks)
      (Except.error AuthError.InvalidJwks) (by decide) (by decide) (by decide)
      (by decide)⟩

/-- C4: for every token that reaches the concurrent branches (parsed claims,
audience checks passed, temporal checks passed — the preconditions for the
WebID document to be fetched at all), if the token's `iss` does not occur in
the `issuers` list of the WebIdDocument fetched from the token's `webid`,
verification fails with `IssuerNotAllowed` even when the signature branch
succeeds. -/
theorem untrusted_issuer_rejected (now : Int) (t : AccessToken) (doc : WebidDoc)
    (hs : t.aud.any (fun s => s = "solid") = true)
    (ha : t.aud.any (fun s => s = t.azp) = true)
    (hiat : t.iat ≤ now) (hexp : now ≤ t.exp)
    (hnbf : ∀ n, t.nbf = some n → n ≤ now)
    (hiss : t.iss ∉ doc.issuers) :
    authenticate now (some t) (Except.ok doc) (Except.ok ()) =
      Except.error AuthError.IssuerNotAllowed := by
  have h1 : ¬ t.iat > now := not_lt.mpr hiat
  have h2 : ¬ t.exp < now := not_lt.mpr hexp
  cases hnb : t.nbf with
  | none => simp [authenticate, hs, ha, verify_times, h1, h2, hnb, trustBranch, hiss]
  | some n =>
    have h3 : ¬ n > now := not_lt.mpr (hnbf n hnb)
    simp [authenticate, hs, ha, verify_times, h1, h2, hnb, h3, trustBranch, hiss]

/-- Witness for C4: a concrete fresh token whose issuer `https://iss.example`
is absent from the fetched document's `issuers`, with the signature branch
succeeding. -/
theorem untrusted_issuer_rejected_witness :
    (freshToken.aud.any (fun s => s = "solid") = true ∧
     freshToken.aud.any (fun s => s = freshToken.azp) = true ∧
     freshToken.iat ≤ 10 ∧ (10 : Int) ≤ freshToken.exp ∧
     (∀ n, freshToken.nbf = some n → n ≤ 10) ∧
     freshToken.iss ∉ otherIssuerDoc.issuers) ∧
    authenticate 10 (some freshToken) (Except.ok otherIssuerDoc) (Except.ok ()) =
      Except.error AuthError.IssuerNotAllowed :=
  ⟨⟨by decide, by decide, by decide, by decide,
    by intro n hn; injection hn with h2; rw [← h2]; decide, by decide⟩,
    untrusted_issuer_rejected 10 freshToken otherIssuerDoc (by decide) (by decide)
      (by decide) (by decide) (by intro n hn; injection hn with h2; rw [← h2]; decide)
      (by decide)⟩
